import Mathlib

/-!
Verification of the daily-scrum tool scripts: a shallow embedding of the
pure decision logic of the three scripts (reporter, notifier, submitter)
together with proofs of the specified properties.  External services
(the Slack API, the Airtable API, the LLM completion endpoint and the
JSON parser of the standard library) are modelled as parameters; the
control flow around them is translated line by line from the Python
source.
-/

namespace DailyScrum

/-! ## Python string primitives -/

/-- The apostrophe character, kept as a named constant. -/
def apos : String := String.singleton (Char.ofNat 39)

/-- Python `str.lower` restricted to ASCII, which is all the scripts use. -/
def pyLower (s : String) : String := String.mk (s.data.map Char.toLower)

/-- ASCII whitespace as recognised by Python `str.strip`. -/
def isSpaceChar (c : Char) : Bool := c == ' ' || c == '\t' || c == '\n' || c == '\r'

/-- Python `str.strip()` with the default whitespace argument. -/
def pyStrip (s : String) : String :=
  String.mk (((s.data.dropWhile isSpaceChar).reverse.dropWhile isSpaceChar).reverse)

/-- Boolean list-prefix test used to implement the substring test. -/
def isPrefixB : List Char → List Char → Bool
  | [], _ => true
  | _ :: _, [] => false
  | a :: as, b :: bs => a == b && isPrefixB as bs

/-- Helper for `pyIn`: does `needle` occur at some position of the haystack? -/
def inAux (needle : List Char) : List Char → Bool
  | [] => isPrefixB needle []
  | c :: rest => isPrefixB needle (c :: rest) || inAux needle rest

/-- The Python substring test `needle in hay`. -/
def pyIn (needle hay : String) : Bool := inAux needle.data hay.data

/-- Python truthiness of an optional string: `None` and the empty string are falsy. -/
def pyTruthyStrOpt : Option String → Bool
  | none => false
  | some s => !s.isEmpty

/-- Python `blockers or \x27\x27`: the string when truthy, else the empty string. -/
def pyOrEmpty : Option String → String
  | none => ""
  | some s => s

/-- Python `str()` of a boolean, as interpolated into an f-string. -/
def pyBoolStr (b : Bool) : String := if b then "True" else "False"

/-- Python `dict.get key default` over an association-list model of a dict. -/
def pyDictGet (fields : List (String × String)) (key dflt : String) : String :=
  match List.lookup key fields with
  | some v => v
  | none => dflt

/-! ## Display-name derivation

`submit_standup_update.py` derives a display name with
`user_email.split(C)[0].replace(D, SPACE).title()` where C is the at sign and
D the dot; `generate_standup_report.py` derives the per-row name with
`email.split(C)[0]` alone. -/

/-- Python `email.split(at)[0]`: the part of the string before the first at sign
(the whole string when there is none). -/
def localPart (email : String) : String :=
  String.mk (email.data.takeWhile (fun c => c ≠ '@'))

/-- Python `str.replace(dot, space)` for the single-character arguments used here. -/
def pyReplaceDot (s : String) : String :=
  String.mk (s.data.map (fun c => if c = '.' then ' ' else c))

/-- Helper for `pyTitle`: `prevCased` records whether the previous character was
alphabetic, as in CPython `str.title`. -/
def titleAux : List Char → Bool → List Char
  | [], _ => []
  | c :: rest, prevCased =>
    (if prevCased then c.toLower else c.toUpper) :: titleAux rest c.isAlpha

/-- Python `str.title()` restricted to ASCII. -/
def pyTitle (s : String) : String := String.mk (titleAux s.data false)

/-- The submitter display-name derivation:
`user_email.split(at)[0].replace(dot, space).title()`. -/
def derive_display_name (email : String) : String :=
  pyTitle (pyReplaceDot (localPart email))

/-! ## JSON values and the blocker classifier (`analyze_blockers_with_llm`) -/

/-- JSON values, the possible results of `json.loads`. -/
inductive JsonVal
  | null
  | bool (b : Bool)
  | num (n : Int)
  | str (s : String)
  | arr (elems : List JsonVal)
  | obj (members : List (String × JsonVal))

/-- Subscripting a parsed JSON object by key (`analysis[key]` on a dict). -/
def jsonGet : JsonVal → String → Option JsonVal
  | .obj members, key => List.lookup key members
  | _, _ => none

/-- The two-field analysis dict built by both fallback branches of
`analyze_blockers_with_llm`. -/
def mkAnalysis (has : Bool) (summary : String) : JsonVal :=
  .obj [("has_blockers", .bool has), ("summary", .str summary)]

/-- Outcome of the `litellm.completion` call: either the call raised, or it
returned and `response.choices[0].message.content` is the given text. -/
inductive LLMOutcome
  | raised (msg : String)
  | returned (content : String)

/-- The fixed keyword list of the exception-fallback branch. -/
def blocker_keywords : List String :=
  ["blocked", "blocker", "impediment", "waiting for", "can" ++ apos ++ "t",
   "unable", "stuck", "issue", "problem"]

/-- The text scanned by the keyword fallback:
lower-cased `yesterday SPACE today SPACE (blockers or empty)`. -/
def text_to_check (yesterday today : String) (blockers : Option String) : String :=
  pyLower (yesterday ++ " " ++ today ++ " " ++ pyOrEmpty blockers)

/-- The analysis dict returned when the completion call raised: keyword scan for
`has_blockers`, and the blockers text echoed as summary only when it is truthy
and a keyword matched. -/
def keyword_fallback_analysis (yesterday today : String) (blockers : Option String) : JsonVal :=
  let has_blockers := blocker_keywords.any (fun k => pyIn k (text_to_check yesterday today blockers))
  mkAnalysis has_blockers
    (if pyTruthyStrOpt blockers && has_blockers then pyOrEmpty blockers
     else "No blockers identified")

/-- `analyze_blockers_with_llm`, parameterised by the JSON parser `jsonLoads`
(`json.loads`, returning `none` exactly when it raises `JSONDecodeError`) and
by the outcome of the completion call.  On a returned completion the content is
stripped, parsed, and returned unmodified on parse success; on parse failure a
substring heuristic over the response text decides `has_blockers`; on a raised
completion the keyword fallback runs over the concatenated input text. -/
def analyze_blockers_with_llm (jsonLoads : String → Option JsonVal) (outcome : LLMOutcome)
    (yesterday today : String) (blockers : Option String) : JsonVal :=
  match outcome with
  | .raised _ => keyword_fallback_analysis yesterday today blockers
  | .returned content =>
    let llm_response := pyStrip content
    match jsonLoads llm_response with
    | some analysis => analysis
    | none =>
      let has_blockers := pyIn "true" (pyLower llm_response)
        && (pyIn "blocker" (pyLower llm_response) || pyIn "impediment" (pyLower llm_response))
      mkAnalysis has_blockers
        (if has_blockers then llm_response else "No blockers identified")

/-! ## Reporter (`generate_standup_report.py`) -/

/-- A row of the Airtable table: a record id and the field dict. -/
structure AirtableRecord where
  id : String
  fields : List (String × String)

/-- A single transformed report row. -/
structure StandupReport where
  name : String
  email : String
  yesterday : String
  today : String
  blockers : Option String

/-- The output document of `get_standup_data_as_json`: date, a list of reports
and the aggregate blocker flag. -/
structure StandupData where
  date : String
  reports : List StandupReport
  has_blockers : Bool

/-- The per-row transformation of the reporter loop: defaults from
`fields.get`, and the name taken as the raw email local part. -/
def mkReport (record : AirtableRecord) : StandupReport :=
  let email := pyDictGet record.fields "Email" "Unknown"
  { name := localPart email
    email := email
    yesterday := pyDictGet record.fields "Yesterday" "No update provided"
    today := pyDictGet record.fields "Today" "No update provided"
    blockers := List.lookup "Blockers" record.fields }

/-- The reporter loop: per record, raise the aggregate flag when the blockers
value is truthy and append the transformed report. -/
def standup_loop : StandupData → List AirtableRecord → StandupData
  | acc, [] => acc
  | acc, record :: rest =>
    let report := mkReport record
    standup_loop
      { acc with
        has_blockers := acc.has_blockers || pyTruthyStrOpt report.blockers
        reports := acc.reports ++ [report] }
      rest

/-- `get_standup_data_as_json`, parameterised by the current UTC date string
and the rows returned by the date-filtered query. -/
def get_standup_data_as_json (today_date : String) (records : List AirtableRecord) :
    StandupData :=
  standup_loop { date := today_date, reports := [], has_blockers := false } records

/-! ## Submitter (`submit_standup_to_airtable`) -/

/-- A value written into a record field: the scripts write strings and one
boolean (`Has_Blockers`). -/
inductive FieldValue
  | str (s : String)
  | boolean (b : Bool)
  deriving DecidableEq

/-- The shape of the analysis dict as consumed by the submitter
(`blocker_analysis` with its `has_blockers` and `summary` entries). -/
structure BlockerAnalysis where
  has_blockers : Bool
  summary : String

/-- The human-readable rendering stored in the `Attachment Summary` field when
that column was discovered: the f-string of the source, stripped. -/
def attachment_summary (user_email yesterday today : String) (blockers : Option String)
    (analysis : BlockerAnalysis) (formatted_date timestamp : String) : String :=
  pyStrip ("\nSTANDUP UPDATE - " ++ formatted_date
    ++ "\nUser: " ++ user_email
    ++ "\nName: " ++ derive_display_name user_email
    ++ "\n\nYESTERDAY:\n" ++ yesterday
    ++ "\n\nTODAY:\n" ++ today
    ++ "\n\nBLOCKERS:\n" ++ (if pyTruthyStrOpt blockers then pyOrEmpty blockers else "None")
    ++ "\n\nBLOCKER ANALYSIS:\n- Has Blockers: " ++ pyBoolStr analysis.has_blockers
    ++ "\n- Summary: " ++ analysis.summary
    ++ "\n\nTimestamp: " ++ timestamp
    ++ "\n            ")

/-- The `field_mapping` dict of the submitter, in source order. -/
def field_mapping (user_email yesterday today : String) (blockers : Option String)
    (analysis : BlockerAnalysis) (formatted_date timestamp : String) :
    List (String × FieldValue) :=
  [("Email", .str user_email),
   ("Name", .str (derive_display_name user_email)),
   ("Yesterday", .str yesterday),
   ("Today", .str today),
   ("Last_Updated", .str formatted_date),
   ("Timestamp", .str timestamp),
   ("Has_Blockers", .boolean analysis.has_blockers),
   ("Blocker_Summary", .str analysis.summary),
   ("Blockers", .str (pyOrEmpty blockers))]

/-- The `record_data` payload: the `Attachment Summary` entry when that field
was discovered, then every `field_mapping` entry whose key is among the
discovered fields. -/
def build_record_data (available_fields : List String) (user_email yesterday today : String)
    (blockers : Option String) (analysis : BlockerAnalysis)
    (formatted_date timestamp : String) : List (String × FieldValue) :=
  (if available_fields.contains "Attachment Summary" then
     [("Attachment Summary",
       FieldValue.str (attachment_summary user_email yesterday today blockers analysis
         formatted_date timestamp))]
   else [])
  ++ (field_mapping user_email yesterday today blockers analysis formatted_date
       timestamp).filter (fun p => available_fields.contains p.1)

/-- The ten field names the submitter can ever write: the nine desired fields
plus the `Attachment Summary` fallback. -/
def desired_fields : List String :=
  ["Attachment Summary", "Email", "Name", "Yesterday", "Today", "Last_Updated",
   "Timestamp", "Has_Blockers", "Blocker_Summary", "Blockers"]

/-- A write issued against the table: `table.update(id, data)` or
`table.create(data)`. -/
inductive WriteAction
  | update (record_id : String) (data : List (String × FieldValue))
  | create (data : List (String × FieldValue))
  deriving DecidableEq

/-- The `existing_records` list: the result of the email-formula query when an
`Email` field was discovered, the empty list otherwise (no lookup performed). -/
def lookup_existing (available_fields : List String)
    (query_result : List AirtableRecord) : List AirtableRecord :=
  if available_fields.contains "Email" then query_result else []

/-- The write phase of `submit_standup_to_airtable`: one update on the first
existing record when the lookup found matches, else one create. -/
def upsert_actions (available_fields : List String) (query_result : List AirtableRecord)
    (record_data : List (String × FieldValue)) : List WriteAction :=
  match lookup_existing available_fields query_result with
  | [] => [.create record_data]
  | r :: _ => [.update r.id record_data]

/-! ## Notifier (`notify_users.py`)

`notify_user` exits the process (`sys.exit(1)`) when the lookup or the send
returns a non-200 status or an application-level not-ok body; an exception
raised by the HTTP library itself propagates as an ordinary `Exception`.
`notify_team` wraps each call in `except Exception`, which in Python does not
catch `SystemExit` (a `BaseException` that is not an `Exception`). -/

/-- Outcome of one Slack HTTP call. -/
inductive SlackResp
  | ok (payload : String)
  | notOk (body : String)
  | raised (msg : String)

/-- The Slack environment: user lookup by email and message posting by user id. -/
structure SlackEnv where
  lookupByEmail : String → SlackResp
  postMessage : String → SlackResp

/-- How a Python control-flow escape leaves `notify_user`: `sys.exit` raises
`SystemExit`, which is not a subclass of `Exception`. -/
inductive PyExit
  | systemExit (code : Nat)
  | exception (msg : String)
  deriving DecidableEq

/-- Whether `except Exception` catches the escape. -/
def isException : PyExit → Bool
  | .systemExit _ => false
  | .exception _ => true

/-- `notify_user`: resolve the email, then post the reminder; non-ok responses
call `sys.exit(1)`, library errors raise. -/
def notify_user (env : SlackEnv) (user_email : String) : Except PyExit Unit :=
  match env.lookupByEmail user_email with
  | .raised msg => .error (.exception msg)
  | .notOk _ => .error (.systemExit 1)
  | .ok user_id =>
    match env.postMessage user_id with
    | .raised msg => .error (.exception msg)
    | .notOk _ => .error (.systemExit 1)
    | .ok _ => .ok ()

/-- `notify_team`: iterate the emails, catching only ordinary exceptions per
element; a `SystemExit` escapes the loop and ends the process.  Returns the
list of emails for which `notify_user` was invoked, and the final outcome. -/
def notify_team (env : SlackEnv) : List String → List String × Except PyExit Unit
  | [] => ([], .ok ())
  | email :: rest =>
    match notify_user env email with
    | .ok _ =>
      let result := notify_team env rest
      (email :: result.1, result.2)
    | .error e =>
      if isException e then
        let result := notify_team env rest
        (email :: result.1, result.2)
      else
        ([email], .error e)

/-! ## Helper lemmas -/

/-- Reading `has_blockers` from a fallback analysis dict. -/
theorem jsonGet_mkAnalysis_has (h : Bool) (s : String) :
    jsonGet (mkAnalysis h s) "has_blockers" = some (.bool h) := rfl

/-- Reading `summary` from a fallback analysis dict. -/
theorem jsonGet_mkAnalysis_summary (h : Bool) (s : String) :
    jsonGet (mkAnalysis h s) "summary" = some (.str s) := rfl

/-- The keys surviving the membership filter over a field list are exactly the
original keys that are among the available fields. -/
theorem keys_filter (avail : List String) (l : List (String × FieldValue)) (k : String) :
    k ∈ (l.filter (fun p => avail.contains p.1)).map Prod.fst ↔
      k ∈ l.map Prod.fst ∧ avail.contains k = true := by
  simp only [List.mem_map, List.mem_filter]
  constructor
  · rintro ⟨⟨k1, v⟩, ⟨hmem, hp⟩, rfl⟩
    exact ⟨⟨(k1, v), hmem, rfl⟩, hp⟩
  · rintro ⟨⟨⟨k1, v⟩, hmem, rfl⟩, hc⟩
    exact ⟨(k1, v), ⟨hmem, hc⟩, rfl⟩

/-- Unfolding of the reporter loop over an arbitrary accumulator. -/
theorem standup_loop_spec (records : List AirtableRecord) (acc : StandupData) :
    standup_loop acc records =
      { date := acc.date
        reports := acc.reports ++ records.map mkReport
        has_blockers :=
          acc.has_blockers || records.any (fun r => pyTruthyStrOpt (mkReport r).blockers) } := by
  induction records generalizing acc with
  | nil => simp [standup_loop]
  | cons r rest ih => simp [standup_loop, ih, Bool.or_assoc]

/-! ## The claims -/

/-- C3 counterexample: the reporter derives the per-row name from
`jane.doe@example.com` as the raw local part `jane.doe`, not as the title-cased
`Jane Doe` the claim asserts for every derivation site. -/
theorem c3_reporter_name_counterexample :
    (mkReport ⟨"rec1", [("Email", "jane.doe@example.com")]⟩).name = "jane.doe" ∧
      "jane.doe" ≠ "Jane Doe" := by
  exact ⟨rfl, by decide⟩

/-- C3 (amended): name derivation is deterministic in both sites, but the two
sites differ: the submitter (and the scrum-master escalation) title-case the
dot-split local part, yielding `Jane Doe`, while the reporter keeps the raw
local part, yielding `jane.doe`. -/
theorem c3_name_derivation :
    derive_display_name "jane.doe@example.com" = "Jane Doe" ∧
      (∀ record : AirtableRecord,
        (mkReport record).name = localPart (pyDictGet record.fields "Email" "Unknown")) ∧
      localPart "jane.doe@example.com" = "jane.doe" := by
  refine ⟨by decide, fun record => rfl, by decide⟩

/-- C2 (evaluated at the failing input): with two recipients and a Slack
lookup that answers not-ok for the first, the batch notifier invokes
`notify_user` only on the first email and the process exits with status 1
before the second recipient is ever attempted — the per-element
`except Exception` does not catch the `SystemExit` raised by `sys.exit(1)`
inside `notify_user`. -/
theorem c2_batch_aborts_on_not_ok_lookup :
    (notify_team
        { lookupByEmail := fun e => if e = "alice@example.com" then .notOk "ok false" else .ok "U1"
          postMessage := fun _ => .ok "sent" }
        ["alice@example.com", "bob@example.com"]).1 = ["alice@example.com"] ∧
      (notify_team
        { lookupByEmail := fun e => if e = "alice@example.com" then .notOk "ok false" else .ok "U1"
          postMessage := fun _ => .ok "sent" }
        ["alice@example.com", "bob@example.com"]).2 = .error (.systemExit 1) ∧
      "bob@example.com" ∉
        (notify_team
          { lookupByEmail := fun e => if e = "alice@example.com" then .notOk "ok false" else .ok "U1"
            postMessage := fun _ => .ok "sent" }
          ["alice@example.com", "bob@example.com"]).1 := by
  refine ⟨rfl, rfl, by decide⟩

/-- C7: when the completion call returned and the (stripped) response text
parses as JSON, the classifier returns the parsed value unmodified. -/
theorem c7_parsed_json_returned_unmodified (jsonLoads : String → Option JsonVal)
    (content : String) (v : JsonVal) (yesterday today : String) (blockers : Option String)
    (h : jsonLoads (pyStrip content) = some v) :
    analyze_blockers_with_llm jsonLoads (.returned content) yesterday today blockers = v := by
  simp [analyze_blockers_with_llm, h]

/-- The example response of the claim for C7. -/
def c7resp : String := "\x7b\"has_blockers\": true, \"summary\": \"waiting on X\"\x7d"

/-- The parse of `c7resp`. -/
def c7obj : JsonVal := .obj [("has_blockers", .bool true), ("summary", .str "waiting on X")]

/-- A concrete `json.loads` behaviour mapping the example response to its parse. -/
def c7loads : String → Option JsonVal := fun s => if s = c7resp then some c7obj else none

/-- C7 witness: at the concrete example response, classification returns
exactly the parsed object. -/
theorem c7_witness :
    analyze_blockers_with_llm c7loads (.returned c7resp) "did stuff" "more stuff" none = c7obj :=
  c7_parsed_json_returned_unmodified c7loads c7resp c7obj "did stuff" "more stuff" none rfl

/-- The example fallback response of the claim for C8. -/
def c8resp : String := "It is true that there is a blocker here"

/-- C8: when the completion call returned but the response is not valid JSON,
the classifier reports blockers exactly when the lower-cased response contains
the substring true together with blocker or impediment, and in that case the
summary is the response text itself. -/
theorem c8_invalid_json_fallback (jsonLoads : String → Option JsonVal)
    (content yesterday today : String) (blockers : Option String)
    (h : jsonLoads (pyStrip content) = none) :
    (jsonGet (analyze_blockers_with_llm jsonLoads (.returned content) yesterday today blockers)
        "has_blockers" =
      some (.bool (pyIn "true" (pyLower (pyStrip content)) &&
        (pyIn "blocker" (pyLower (pyStrip content)) ||
          pyIn "impediment" (pyLower (pyStrip content)))))) ∧
    ((pyIn "true" (pyLower (pyStrip content)) &&
        (pyIn "blocker" (pyLower (pyStrip content)) ||
          pyIn "impediment" (pyLower (pyStrip content)))) = true →
      jsonGet (analyze_blockers_with_llm jsonLoads (.returned content) yesterday today blockers)
        "summary" = some (.str (pyStrip content))) := by
  constructor
  · simp [analyze_blockers_with_llm, h, jsonGet_mkAnalysis_has]
  · intro hb
    simp [analyze_blockers_with_llm, h, hb, jsonGet_mkAnalysis_summary]

/-- C8 witness: a non-JSON response containing true and blocker yields a
positive analysis carrying the raw response text as summary. -/
theorem c8_witness :
    jsonGet (analyze_blockers_with_llm (fun _ => none) (.returned c8resp)
        "upgraded the library" "continue upgrades" none) "has_blockers" = some (.bool true) ∧
    jsonGet (analyze_blockers_with_llm (fun _ => none) (.returned c8resp)
        "upgraded the library" "continue upgrades" none) "summary" = some (.str c8resp) := by
  have h := c8_invalid_json_fallback (fun _ => none) c8resp
    "upgraded the library" "continue upgrades" none rfl
  exact ⟨h.1.trans (congrArg (fun b => some (JsonVal.bool b)) (by decide)), h.2 (by decide)⟩

/-- C10: in the exception-fallback branch, the blockers text is echoed as the
summary only when it is truthy (non-`None` and non-empty) and a keyword
matched; otherwise the summary is the fixed string, even when blockers were
detected in the other texts. -/
theorem c10_fallback_summary (jsonLoads : String → Option JsonVal)
    (msg yesterday today : String) (blockers : Option String) :
    (pyTruthyStrOpt blockers = false →
      jsonGet (analyze_blockers_with_llm jsonLoads (.raised msg) yesterday today blockers)
        "summary" = some (.str "No blockers identified")) ∧
    (pyTruthyStrOpt blockers = true →
      jsonGet (analyze_blockers_with_llm jsonLoads (.raised msg) yesterday today blockers)
          "has_blockers" = some (.bool true) →
      jsonGet (analyze_blockers_with_llm jsonLoads (.raised msg) yesterday today blockers)
        "summary" = some (.str (pyOrEmpty blockers))) ∧
    (jsonGet (analyze_blockers_with_llm jsonLoads (.raised msg) yesterday today blockers)
          "has_blockers" = some (.bool false) →
      jsonGet (analyze_blockers_with_llm jsonLoads (.raised msg) yesterday today blockers)
        "summary" = some (.str "No blockers identified")) := by
  have hform : analyze_blockers_with_llm jsonLoads (.raised msg) yesterday today blockers =
      mkAnalysis (blocker_keywords.any fun k => pyIn k (text_to_check yesterday today blockers))
        (if pyTruthyStrOpt blockers &&
            (blocker_keywords.any fun k => pyIn k (text_to_check yesterday today blockers)) then
          pyOrEmpty blockers
        else "No blockers identified") := rfl
  rw [hform, jsonGet_mkAnalysis_has, jsonGet_mkAnalysis_summary]
  refine ⟨fun hb => ?_, fun hb hhas => ?_, fun hhas => ?_⟩
  · simp [hb]
  · injection hhas with h1
    injection h1 with h2
    simp [hb, h2]
  · injection hhas with h1
    injection h1 with h2
    simp [h2]

/-- C10 witness: blockers absent but a keyword present in the other texts — the
analysis is positive yet the summary is the fixed string. -/
theorem c10_witness :
    pyTruthyStrOpt none = false ∧
    jsonGet (analyze_blockers_with_llm (fun _ => none) (.raised "timeout")
        "stuck on the database migration" "continue the migration" none) "summary" =
      some (.str "No blockers identified") ∧
    jsonGet (analyze_blockers_with_llm (fun _ => none) (.raised "timeout")
        "stuck on the database migration" "continue the migration" none) "has_blockers" =
      some (.bool true) :=
  ⟨rfl,
   (c10_fallback_summary (fun _ => none) "timeout" "stuck on the database migration"
      "continue the migration" none).1 rfl,
   rfl⟩

/-- The example update text of the claim for C4. -/
def imStuckText : String := "I" ++ apos ++ "m stuck on the deployment"

/-- C4: when the completion call raised, the classifier reports blockers
exactly when some keyword of the fixed list occurs in the lower-cased
concatenation of the three texts; in particular any text containing the word
stuck yields a positive analysis. -/
theorem c4_exception_keyword_fallback (jsonLoads : String → Option JsonVal)
    (msg yesterday today : String) (blockers : Option String) :
    (jsonGet (analyze_blockers_with_llm jsonLoads (.raised msg) yesterday today blockers)
        "has_blockers" =
      some (.bool (blocker_keywords.any fun k =>
        pyIn k (text_to_check yesterday today blockers)))) ∧
    (pyIn "stuck" (text_to_check yesterday today blockers) = true →
      jsonGet (analyze_blockers_with_llm jsonLoads (.raised msg) yesterday today blockers)
        "has_blockers" = some (.bool true)) := by
  refine ⟨rfl, fun h => ?_⟩
  have hany : (blocker_keywords.any fun k =>
      pyIn k (text_to_check yesterday today blockers)) = true :=
    List.any_eq_true.mpr ⟨"stuck", by decide, h⟩
  have h1 : jsonGet (analyze_blockers_with_llm jsonLoads (.raised msg) yesterday today blockers)
      "has_blockers" =
      some (.bool (blocker_keywords.any fun k =>
        pyIn k (text_to_check yesterday today blockers))) := rfl
  rw [h1, hany]

/-- C4 witness: the completion call raised and the today text contains the
phrase I am stuck (with an apostrophe); the keyword fallback reports blockers. -/
theorem c4_witness :
    pyIn "stuck" (text_to_check "worked on the api" imStuckText none) = true ∧
    jsonGet (analyze_blockers_with_llm (fun _ => none) (.raised "connection error")
        "worked on the api" imStuckText none) "has_blockers" = some (.bool true) :=
  ⟨by decide,
   (c4_exception_keyword_fallback (fun _ => none) "connection error"
      "worked on the api" imStuckText none).2 (by decide)⟩

/-- Key membership in the built record payload: a key appears exactly when it
is one of the ten writable field names and was discovered in the table. -/
theorem mem_keys_build_record_data (available_fields : List String)
    (user_email yesterday today : String) (blockers : Option String)
    (analysis : BlockerAnalysis) (formatted_date timestamp : String) (k : String) :
    k ∈ (build_record_data available_fields user_email yesterday today blockers analysis
          formatted_date timestamp).map Prod.fst ↔
      (k ∈ desired_fields ∧ available_fields.contains k = true) := by
  simp only [build_record_data, List.map_append, List.mem_append, keys_filter]
  constructor
  · rintro (hin | ⟨hmem, hc⟩)
    · by_cases hAS : available_fields.contains "Attachment Summary" = true
      · rw [if_pos hAS] at hin
        simp only [List.map_cons, List.map_nil, List.mem_singleton] at hin
        subst hin
        exact ⟨by decide, hAS⟩
      · rw [if_neg hAS] at hin
        simp at hin
    · refine ⟨?_, hc⟩
      simp only [field_mapping, List.map_cons, List.map_nil, List.mem_cons,
        List.not_mem_nil, or_false] at hmem
      simp only [desired_fields, List.mem_cons, List.not_mem_nil, or_false]
      tauto
  · rintro ⟨hdes, hc⟩
    simp only [desired_fields, List.mem_cons, List.not_mem_nil, or_false] at hdes
    rcases hdes with rfl | h9
    · left
      rw [if_pos hc]
      simp
    · right
      refine ⟨?_, hc⟩
      simp only [field_mapping, List.map_cons, List.map_nil, List.mem_cons,
        List.not_mem_nil, or_false]
      tauto

/-- C1: the record payload contains a key exactly when that key is among the
nine desired fields or the Attachment Summary fallback and is a member of the
discovered field set; in particular no key outside the discovered set ever
appears in the payload. -/
theorem c1_payload_keys_within_discovered_schema (available_fields : List String)
    (user_email yesterday today : String) (blockers : Option String)
    (analysis : BlockerAnalysis) (formatted_date timestamp : String) (k : String) :
    k ∈ (build_record_data available_fields user_email yesterday today blockers analysis
          formatted_date timestamp).map Prod.fst ↔
      (k ∈ desired_fields ∧ available_fields.contains k = true) :=
  mem_keys_build_record_data available_fields user_email yesterday today blockers analysis
    formatted_date timestamp k

/-- C5: with an Email field discovered, a lookup returning at least one match
leads to exactly one write, an update of the first matched record, and a
create is issued exactly when the lookup returned no match. -/
theorem c5_upsert_updates_first_match (available_fields : List String)
    (r : AirtableRecord) (rs query_result : List AirtableRecord)
    (record_data : List (String × FieldValue))
    (hEmail : available_fields.contains "Email" = true) :
    upsert_actions available_fields (r :: rs) record_data =
        [WriteAction.update r.id record_data] ∧
      (upsert_actions available_fields query_result record_data =
          [WriteAction.create record_data] ↔ query_result = []) := by
  have hm : "Email" ∈ available_fields := by simpa using hEmail
  constructor
  · simp [upsert_actions, lookup_existing, hm]
  · cases query_result with
    | nil => simp [upsert_actions, lookup_existing, hm]
    | cons a as => simp [upsert_actions, lookup_existing, hm]

/-- A concrete existing record for the C5 witness. -/
def c5rec : AirtableRecord := ⟨"recExisting1", [("Email", "jane.doe@example.com")]⟩

/-- A concrete payload for the C5 witness. -/
def c5data : List (String × FieldValue) :=
  [("Email", .str "jane.doe@example.com"), ("Yesterday", .str "shipped the report")]

/-- C5 witness: one match yields exactly one update on its id; the empty
lookup yields the create. -/
theorem c5_witness :
    upsert_actions ["Email", "Yesterday"] [c5rec] c5data =
        [WriteAction.update "recExisting1" c5data] ∧
      (upsert_actions ["Email", "Yesterday"] [] c5data =
          [WriteAction.create c5data] ↔ ([] : List AirtableRecord) = []) :=
  c5_upsert_updates_first_match ["Email", "Yesterday"] c5rec [] [] c5data rfl

/-- C6: the reporter output keeps the given date, carries exactly one
transformed report per queried row, and its aggregate flag is true exactly
when some row has a truthy (present and non-empty) Blockers value. -/
theorem c6_report_shape_and_aggregate (today_date : String)
    (records : List AirtableRecord) :
    (get_standup_data_as_json today_date records).date = today_date ∧
    (get_standup_data_as_json today_date records).reports = records.map mkReport ∧
    ((get_standup_data_as_json today_date records).has_blockers = true ↔
      ∃ r ∈ records, pyTruthyStrOpt (List.lookup "Blockers" r.fields) = true) := by
  rw [get_standup_data_as_json, standup_loop_spec]
  refine ⟨rfl, by simp, ?_⟩
  simp [List.any_eq_true, mkReport]

/-- The analysis value used in the C9 counterexample and witness. -/
def c9analysis : BlockerAnalysis := ⟨false, "No blockers identified"⟩

/-- C9 counterexample: with an empty discovered field set (schema discovery
found nothing) no lookup happens and a create is issued, but the created row
contains neither an Email nor a Name key — the claim that every created row
includes the submitter Email and a derived Name fails. -/
theorem c9_create_without_identity_counterexample :
    upsert_actions [] []
        (build_record_data [] "jane.doe@example.com" "reviewed the pull requests"
          "write the integration tests" none c9analysis "2026-10-12"
          "2026-10-12T09:00:00+00:00") =
      [WriteAction.create
        (build_record_data [] "jane.doe@example.com" "reviewed the pull requests"
          "write the integration tests" none c9analysis "2026-10-12"
          "2026-10-12T09:00:00+00:00")] ∧
    "Email" ∉ (build_record_data [] "jane.doe@example.com" "reviewed the pull requests"
        "write the integration tests" none c9analysis "2026-10-12"
        "2026-10-12T09:00:00+00:00").map Prod.fst ∧
    "Name" ∉ (build_record_data [] "jane.doe@example.com" "reviewed the pull requests"
        "write the integration tests" none c9analysis "2026-10-12"
        "2026-10-12T09:00:00+00:00").map Prod.fst := by
  refine ⟨rfl, by decide, by decide⟩

/-- C9 (amended): the create payload carries the Email key exactly when Email
was discovered and the Name key exactly when Name was discovered; whenever a
lookup was actually performed (Email discovered) and found no match, the
created row does include the submitter Email. -/
theorem c9_amended_create_includes_discovered_identity (available_fields : List String)
    (user_email yesterday today : String) (blockers : Option String)
    (analysis : BlockerAnalysis) (formatted_date timestamp : String) :
    ("Email" ∈ (build_record_data available_fields user_email yesterday today blockers
          analysis formatted_date timestamp).map Prod.fst ↔
        available_fields.contains "Email" = true) ∧
    ("Name" ∈ (build_record_data available_fields user_email yesterday today blockers
          analysis formatted_date timestamp).map Prod.fst ↔
        available_fields.contains "Name" = true) ∧
    (available_fields.contains "Email" = true →
      upsert_actions available_fields []
          (build_record_data available_fields user_email yesterday today blockers analysis
            formatted_date timestamp) =
        [WriteAction.create
          (build_record_data available_fields user_email yesterday today blockers analysis
            formatted_date timestamp)] ∧
      "Email" ∈ (build_record_data available_fields user_email yesterday today blockers
          analysis formatted_date timestamp).map Prod.fst) := by
  have hE := mem_keys_build_record_data available_fields user_email yesterday today blockers
    analysis formatted_date timestamp "Email"
  have hN := mem_keys_build_record_data available_fields user_email yesterday today blockers
    analysis formatted_date timestamp "Name"
  refine ⟨?_, ?_, fun hc => ?_⟩
  · rw [hE]; exact and_iff_right (by decide)
  · rw [hN]; exact and_iff_right (by decide)
  · exact ⟨by simp [upsert_actions, lookup_existing, hc], hE.mpr ⟨by decide, hc⟩⟩

/-- The create payload for the C9 amended witness. -/
def c9data : List (String × FieldValue) :=
  build_record_data ["Email", "Name"] "jane.doe@example.com" "reviewed the pull requests"
    "write the integration tests" none c9analysis "2026-10-12" "2026-10-12T09:00:00+00:00"

/-- C9 amended witness: with Email and Name discovered and an empty lookup,
the create happens and carries the Email key. -/
theorem c9_amended_witness :
    upsert_actions ["Email", "Name"] [] c9data = [WriteAction.create c9data] ∧
      "Email" ∈ c9data.map Prod.fst :=
  (c9_amended_create_includes_discovered_identity ["Email", "Name"] "jane.doe@example.com"
    "reviewed the pull requests" "write the integration tests" none c9analysis "2026-10-12"
    "2026-10-12T09:00:00+00:00").2.2 rfl

end DailyScrum
